import Mathlib

-- Formal model of the frontend hooks of the auroraview-dcc-shelves repository.
-- The definitions below are shallow embeddings of the TypeScript sources:
--   src/frontend/types.ts
--   src/frontend/hooks/useShelfIPC.ts
--   src/frontend/hooks/useUserTools.ts
--   src/frontend/hooks/useZoom.ts
--   src/frontend/hooks/useLocalizedTool.ts
-- JavaScript numbers are modelled as rationals, JavaScript string-or-undefined
-- values as Option String (with explicit truthiness helpers, since the empty
-- string is falsy), promise rejection as the error case of Except, and the
-- React state updates of each hook as explicit state passing.

namespace DccShelves

/-- JavaScript truthiness of a string-or-undefined value: undefined and the
empty string are falsy, every other string is truthy. -/
def optTruthy : Option String → Bool
  | some s => s != ""
  | none => false

/-- JavaScript `a || b` where `a` is a string-or-undefined value and `b` a
string: returns `a` when it is truthy, otherwise `b`. -/
def optStrOr (a : Option String) (b : String) : String :=
  match a with
  | some s => if s = "" then b else s
  | none => b

-- ===== src/frontend/types.ts =====

/-- ToolType enum from types.ts. -/
inductive ToolType
  | python
  | executable
deriving DecidableEq, Repr

/-- ToolSource enum from types.ts. -/
inductive ToolSource
  | system
  | user
deriving DecidableEq, Repr

/-- ButtonConfig interface from types.ts (optional fields are Option). -/
structure ButtonConfig where
  id : String
  name : String
  name_zh : Option String := none
  toolType : ToolType
  toolPath : String
  icon : String
  args : List String
  description : String
  description_zh : Option String := none
  category : String
  category_zh : Option String := none
  hosts : Option (List String) := none
  source : Option ToolSource := none
deriving DecidableEq, Repr

/-- ShelfConfig interface from types.ts. -/
structure ShelfConfig where
  id : String
  name : String
  name_zh : Option String := none
  buttons : List ButtonConfig
deriving DecidableEq, Repr

/-- BannerConfig interface from types.ts (all fields optional). -/
structure BannerConfig where
  title : Option String := none
  title_zh : Option String := none
  subtitle : Option String := none
  subtitle_zh : Option String := none
  image : Option String := none
  gradientFrom : Option String := none
  gradientTo : Option String := none
deriving DecidableEq, Repr

/-- LaunchResult interface from types.ts. -/
structure LaunchResult where
  success : Bool
  message : String
  buttonId : String
  javascript : Option String := none
deriving DecidableEq, Repr

-- ===== src/frontend/hooks/useShelfIPC.ts =====

/-- ConfigResponse interface from useShelfIPC.ts: shape of the payload the
Python backend sends for get_config and the config events. -/
structure ConfigResponse where
  shelves : List ShelfConfig
  banner : Option BannerConfig := none
  currentHost : Option String := none
deriving DecidableEq, Repr

/-- DEFAULT_BANNER constant from useShelfIPC.ts. -/
def DEFAULT_BANNER : BannerConfig :=
  { title := some "Toolbox", subtitle := some "Production Tools & Scripts" }

/-- Availability of the host bridge object window.auroraview: which parts of
its surface exist at a given moment. `apiPresent` means window.auroraview.api
is an object, the other fields record that the named method is a function. -/
structure Bridge where
  apiPresent : Bool
  getConfigFn : Bool
  sendEventFn : Bool
  onFn : Bool
  offFn : Bool
deriving DecidableEq, Repr

/-- hasApiMode from useShelfIPC.ts: window.auroraview.api.get_config is a
function (requires the api object to be present). -/
def hasApiMode (b : Bridge) : Bool := b.apiPresent && b.getConfigFn

/-- hasEventMode from useShelfIPC.ts: window.auroraview.send_event is a
function. -/
def hasEventMode (b : Bridge) : Bool := b.sendEventFn

/-- The bridge methods the initialization effect may invoke. -/
inductive BridgeMethod
  | get_config
  | send_event
  | onMethod
  | offMethod
deriving DecidableEq, Repr

/-- Whether a bridge method exists on a given bridge state. -/
def methodExists (b : Bridge) : BridgeMethod → Bool
  | .get_config => b.apiPresent && b.getConfigFn
  | .send_event => b.sendEventFn
  | .onMethod => b.onFn
  | .offMethod => b.offFn

/-- Bridge methods invoked by loadConfigViaApi (useShelfIPC.ts lines 175-227):
it returns early when the api object is missing, sets an error when
get_config is not a function, and only then calls get_config. -/
def loadConfigViaApiCalls (b : Bridge) : List BridgeMethod :=
  if !b.apiPresent then []
  else if !b.getConfigFn then []
  else [.get_config]

/-- Bridge methods invoked by sendEvent (useShelfIPC.ts lines 118-125): the
send_event method is called only when it exists. -/
def sendEventCalls (b : Bridge) : List BridgeMethod :=
  if b.sendEventFn then [.send_event] else []

/-- Bridge methods invoked by onPythonEvent (useShelfIPC.ts lines 130-134):
the on method is called only when it exists. -/
def onPythonEventCalls (b : Bridge) : List BridgeMethod :=
  if b.onFn then [.onMethod] else []

/-- The three IPC modes of useShelfIPC. -/
inductive IPCMode
  | api
  | event
  | mock
deriving DecidableEq, Repr

/-- Modelled from the spec: the static mock tool list TOOLS_DATA imported
from src/frontend/data/mockData.ts, a file that is not among the provided
sources. The spec only says the hook falls back to static mock data; the
particular entries are irrelevant to every claim, only the identity of the
list matters, so a representative single-entry list is used. -/
def TOOLS_DATA : List ButtonConfig :=
  [{ id := "mock-1", name := "Mock Tool", toolType := .python, toolPath := "",
     icon := "Wrench", args := [], description := "", category := "Mock" }]

/-- Outcome of the initialization effect of useShelfIPC (lines 306-459):
which mode it explicitly set, the resulting isConnected flag, the tools list
it set synchronously (mock branch only), whether it started the production
polling loop, and the bridge methods it invoked. -/
structure InitResult where
  modeSet : Option IPCMode
  isConnected : Bool
  toolsSet : Option (List ButtonConfig)
  startsPolling : Bool
  bridgeCalls : List BridgeMethod
deriving DecidableEq, Repr

/-- The initialization effect of useShelfIPC (lines 306-459): api mode if
hasApiMode, else event mode if hasEventMode, else mock in development, else
start polling. In the event branch three handlers are registered via
onPythonEvent and then requestConfig sends the get_config event. -/
def initIPC (b : Bridge) (isDev : Bool) : InitResult :=
  if hasApiMode b then
    { modeSet := some .api, isConnected := true, toolsSet := none,
      startsPolling := false, bridgeCalls := loadConfigViaApiCalls b }
  else if hasEventMode b then
    { modeSet := some .event, isConnected := true, toolsSet := none,
      startsPolling := false,
      bridgeCalls := onPythonEventCalls b ++ onPythonEventCalls b ++
        onPythonEventCalls b ++ sendEventCalls b }
  else if isDev then
    { modeSet := some .mock, isConnected := false, toolsSet := some TOOLS_DATA,
      startsPolling := false, bridgeCalls := [] }
  else
    { modeSet := none, isConnected := false, toolsSet := none,
      startsPolling := true, bridgeCalls := [] }

/-- The per-button transformation inside parseConfigToTools (lines 149-162):
spread the button and override category with the shelf name and category_zh
with the shelf name_zh or the empty string. -/
def withShelfCategory (shelf : ShelfConfig) (button : ButtonConfig) : ButtonConfig :=
  { button with category := shelf.name,
                category_zh := some (optStrOr shelf.name_zh "") }

/-- parseConfigToTools from useShelfIPC.ts (lines 149-162): the two nested
for loops push every button of every shelf, in order, onto allTools. -/
def parseConfigToTools (config : ConfigResponse) : List ButtonConfig :=
  config.shelves.foldl
    (fun allTools shelf =>
      allTools ++ shelf.buttons.map (fun b => withShelfCategory shelf b)) []

/-- The number of tool entries produced for the shelves before shelf i:
the position in the flattened list at which the buttons of shelf i start. -/
def shelfOffset (shelves : List ShelfConfig) (i : Nat) : Nat :=
  ((shelves.take i).map (fun s => s.buttons.length)).sum

/-- Merge of a received banner over the default, modelling the object spread
in setBanner (lines 211, 336, 355): fields of the received banner override
the default when present. -/
def mergeBanner (d b : BannerConfig) : BannerConfig :=
  { title := b.title <|> d.title,
    title_zh := b.title_zh <|> d.title_zh,
    subtitle := b.subtitle <|> d.subtitle,
    subtitle_zh := b.subtitle_zh <|> d.subtitle_zh,
    image := b.image <|> d.image,
    gradientFrom := b.gradientFrom <|> d.gradientFrom,
    gradientTo := b.gradientTo <|> d.gradientTo }

/-- The event-mode state of useShelfIPC relevant to the config handlers. -/
structure IPCState where
  tools : List ButtonConfig
  banner : BannerConfig
  currentHost : String
deriving DecidableEq, Repr

/-- Initial values of the useState hooks (lines 101-103). -/
def initState : IPCState :=
  { tools := [], banner := DEFAULT_BANNER, currentHost := "standalone" }

/-- The shared body of the configResponse and configUpdated handlers
(lines 329-341 and 350-361): tools are always replaced by the parsed config;
banner is replaced (merged over DEFAULT_BANNER) only when the event carries a
banner; currentHost is replaced only when the event carries a truthy
currentHost string. -/
def applyConfigEvent (s : IPCState) (config : ConfigResponse) : IPCState :=
  { tools := parseConfigToTools config,
    banner :=
      match config.banner with
      | some bn => mergeBanner DEFAULT_BANNER bn
      | none => s.banner,
    currentHost :=
      match config.currentHost with
      | some h => if h = "" then s.currentHost else h
      | none => s.currentHost }

/-- Environment for one launchTool call: which bridge surface exists, the
behaviour of api.launch_tool for this call (a value or a rejection), and the
behaviour of evaluating the returned JavaScript payload. -/
structure LaunchEnv where
  apiPresent : Bool
  sendEventFn : Bool
  isDev : Bool
  launchToolResult : Except String LaunchResult
  evalJs : String → Except String Unit

/-- The bridge invocations launchTool can make. -/
inductive LaunchCall
  | apiLaunch (buttonId : String)
  | eventLaunch (buttonId : String)
deriving DecidableEq, Repr

/-- Observable outcome of one launchTool call: the value passed to
setLaunchResult (if any) and the bridge invocations made. -/
structure LaunchOutcome where
  launchResultState : Option LaunchResult
  calls : List LaunchCall
deriving DecidableEq, Repr

/-- The body of the try block of the API branch of launchTool
(lines 243-266): call api.launch_tool; when the result is successful and
carries a truthy javascript payload, evaluate it, turning an evaluation
error into a failed launch result; otherwise pass the result through. An
error escaping this body models a rejection reaching the outer catch. -/
def launchToolTryBody (env : LaunchEnv) (buttonId : String) :
    Except String (Option LaunchResult) :=
  match env.launchToolResult with
  | .error err => .error err
  | .ok result =>
    if result.success && optTruthy result.javascript then
      match env.evalJs (result.javascript.getD "") with
      | .error jsErr =>
        .ok (some { success := false,
                    message := "JavaScript error: " ++ jsErr,
                    buttonId := buttonId })
      | .ok _ => .ok (some result)
    else .ok (some result)

/-- The API branch of launchTool with its catch (lines 241-275): a rejection
of the bridge call becomes a failed launch result carrying the error text. -/
def launchToolViaApi (env : LaunchEnv) (buttonId : String) :
    Except String (Option LaunchResult) :=
  match launchToolTryBody env buttonId with
  | .ok r => .ok r
  | .error err =>
    .ok (some { success := false, message := err, buttonId := buttonId })

/-- launchTool from useShelfIPC.ts (lines 239-294). The Except layer of the
result models the returned promise: an .error value would be a rejection. -/
def launchTool (env : LaunchEnv) (buttonId : String) :
    Except String LaunchOutcome :=
  if env.apiPresent then
    (launchToolViaApi env buttonId).map
      (fun r => { launchResultState := r, calls := [.apiLaunch buttonId] })
  else if env.sendEventFn then
    .ok { launchResultState := none, calls := [.eventLaunch buttonId] }
  else if env.isDev then
    .ok { launchResultState :=
            some { success := true,
                   message := "[Mock] Tool " ++ buttonId ++ " launched successfully",
                   buttonId := buttonId },
          calls := [] }
  else
    .ok { launchResultState := none, calls := [] }

/-- maxAttempts constant of the production polling loop (line 386). -/
def maxAttempts : Nat := 50

/-- pollInterval constant of the production polling loop (line 387). -/
def pollIntervalMs : Nat := 100

/-- How a run of the production polling loop ends. -/
inductive PollOutcome
  | apiMode
  | eventMode
  | timeoutError
deriving DecidableEq, Repr

/-- The error message set when the polling loop times out (line 417). -/
def pollErrorMessage : PollOutcome → Option String
  | .timeoutError => some "AuroraView not available after timeout"
  | _ => none

/-- The production polling loop pollForAuroraView (lines 385-419), run over a
time-indexed bridge availability function. Each tick increments attempts,
then detects api mode, else event mode, else stops with the timeout error
once attempts reached maxAttempts, else keeps polling. Returns the outcome
and the number of ticks that ran. -/
def pollFrom (avail : Nat → Bridge) (attempts : Nat) : PollOutcome × Nat :=
  let b := avail attempts
  let a := attempts + 1
  if hasApiMode b then (.apiMode, a)
  else if hasEventMode b then (.eventMode, a)
  else if _h : maxAttempts ≤ a then (.timeoutError, a)
  else pollFrom avail a
termination_by maxAttempts - attempts
decreasing_by omega

/-- A full run of the polling loop, starting from zero attempts. -/
def pollForAuroraView (avail : Nat → Bridge) : PollOutcome × Nat :=
  pollFrom avail 0

-- ===== src/frontend/hooks/useUserTools.ts =====

/-- USER_TOOLS_CATEGORY constant from useUserTools.ts. -/
def USER_TOOLS_CATEGORY : String := "My Tools"

/-- USER_TOOLS_CATEGORY_ZH constant from useUserTools.ts. -/
def USER_TOOLS_CATEGORY_ZH : String := "我的工具"

/-- A raw tool record as returned by the Python backend
(Record of string to unknown in useUserTools.ts), with the fields
toButtonConfig reads. -/
structure RawTool where
  id : String
  name : String
  name_zh : Option String := none
  toolType : Option String := none
  tool_type : Option String := none
  toolPath : Option String := none
  tool_path : Option String := none
  icon : Option String := none
  args : Option (List String) := none
  description : Option String := none
  description_zh : Option String := none
  hosts : Option (List String) := none
deriving DecidableEq, Repr

/-- toButtonConfig from useUserTools.ts (lines 34-54): convert an API tool
record to ButtonConfig, with JavaScript-falsy fallbacks for the string
fields, camelCase and snake_case variants for toolType and toolPath, and the
fixed user-tools category. An undefined args list becomes the empty list
(a present empty array is truthy in JavaScript and kept as is). -/
def toButtonConfig (tool : RawTool) : ButtonConfig :=
  let rawToolType := optStrOr tool.toolType (optStrOr tool.tool_type "python")
  let toolType :=
    if rawToolType = "executable" then ToolType.executable else ToolType.python
  { id := tool.id,
    name := tool.name,
    name_zh := tool.name_zh,
    toolType := toolType,
    toolPath := optStrOr tool.toolPath (optStrOr tool.tool_path ""),
    icon := optStrOr tool.icon "Wrench",
    args := tool.args.getD [],
    description := optStrOr tool.description "",
    description_zh := tool.description_zh,
    category := USER_TOOLS_CATEGORY,
    category_zh := some USER_TOOLS_CATEGORY_ZH,
    hosts := tool.hosts,
    source := some .user }

/-- Result shape of the get_user_tools bridge call. -/
structure GetUserToolsResult where
  success : Bool
  tools : List RawTool
  message : Option String := none
deriving DecidableEq, Repr

/-- Result shape of the save_user_tool bridge call. -/
structure SaveToolResult where
  success : Bool
  tool : RawTool
  message : Option String := none
deriving DecidableEq, Repr

/-- Result shape of the delete_user_tool bridge call. -/
structure DeleteToolResult where
  success : Bool
  message : Option String := none
deriving DecidableEq, Repr

/-- maxRetries constant of the loadTools effect (useUserTools.ts line 87). -/
def maxRetries : Nat := 50

/-- How a run of the loadTools effect ends. -/
inductive LoadOutcome
  | loaded (tools : List ButtonConfig)
  | failedResult (message : String)
  | failedThrow (err : String)
  | gaveUp
deriving DecidableEq, Repr

/-- What a single completed get_user_tools call produces (lines 109-124):
a rejection is caught and stored as an error, a response with success false
stores its message (or the fallback text), a successful response stores the
converted tools. -/
def loadCallOutcome (cr : Except String GetUserToolsResult) : LoadOutcome :=
  match cr with
  | .error err => .failedThrow err
  | .ok result =>
    if result.success then .loaded (result.tools.map toButtonConfig)
    else .failedResult (optStrOr result.message "Failed to load tools")

/-- The loadTools retry chain of useUserTools (lines 90-128), run over a
time-indexed availability of the get_user_tools method. When the method is
unavailable the retry counter is incremented and, while still below
maxRetries, the load is retried after a delay; otherwise the run gives up.
When the method is available the single call decides the outcome. Returns
the outcome and the final retry counter. -/
def loadToolsFrom (avail : Nat → Bool) (cr : Except String GetUserToolsResult)
    (retryCount : Nat) : LoadOutcome × Nat :=
  if avail retryCount then (loadCallOutcome cr, retryCount)
  else if _h : retryCount + 1 < maxRetries then loadToolsFrom avail cr (retryCount + 1)
  else (.gaveUp, retryCount + 1)
termination_by maxRetries - retryCount
decreasing_by omega

/-- A full run of the loadTools retry chain, starting from zero retries. -/
def loadTools (avail : Nat → Bool) (cr : Except String GetUserToolsResult) :
    LoadOutcome × Nat :=
  loadToolsFrom avail cr 0

/-- updateTool from useUserTools.ts (lines 182-217), as a transition on the
userTools state: throws "Tool not found" when no tool has the given id;
otherwise the save_user_tool call (whose behaviour is the apiResult
parameter) either rejects, or reports failure, both rethrown with the state
untouched, or succeeds, in which case the tool with that id is replaced by
the converted backend tool. Returns the new state and the thrown message,
if any. -/
def updateTool (userTools : List ButtonConfig) (id : String)
    (apiResult : Except String SaveToolResult) :
    List ButtonConfig × Option String :=
  match userTools.find? (fun t => t.id == id) with
  | none => (userTools, some "Tool not found")
  | some _ =>
    match apiResult with
    | .error err => (userTools, some err)
    | .ok result =>
      if result.success then
        (userTools.map (fun t => if t.id == id then toButtonConfig result.tool else t),
         none)
      else (userTools, some (optStrOr result.message "Failed to update tool"))

/-- deleteTool from useUserTools.ts (lines 222-236), as a transition on the
userTools state: the delete_user_tool call either rejects or reports
failure, both rethrown with the state untouched, or succeeds, in which case
every tool with the given id is filtered out. Returns the new state and the
thrown message, if any. -/
def deleteTool (userTools : List ButtonConfig) (id : String)
    (apiResult : Except String DeleteToolResult) :
    List ButtonConfig × Option String :=
  match apiResult with
  | .error err => (userTools, some err)
  | .ok result =>
    if result.success then
      (userTools.filter (fun t => t.id != id), none)
    else (userTools, some (optStrOr result.message "Failed to delete tool"))

-- ===== src/frontend/hooks/useZoom.ts =====

/-- ZOOM_MIN constant from useZoom.ts. -/
def ZOOM_MIN : ℚ := 1/2

/-- ZOOM_MAX constant from useZoom.ts. -/
def ZOOM_MAX : ℚ := 2

/-- ZOOM_STEP constant from useZoom.ts. -/
def ZOOM_STEP : ℚ := 1/10

/-- Screen type classification from useZoom.ts. -/
inductive ScreenType
  | mobile
  | laptop
  | desktop
  | twoK
  | fourK
  | unknown
deriving DecidableEq, Repr

/-- detectScreenType from useZoom.ts (lines 49-58). -/
def detectScreenType (width height : ℚ) : ScreenType :=
  let maxDimension := max width height
  if 3840 ≤ maxDimension then .fourK
  else if 2560 ≤ maxDimension then .twoK
  else if 1920 ≤ maxDimension then .desktop
  else if 1366 ≤ maxDimension then .laptop
  else if maxDimension < 768 then .mobile
  else .unknown

/-- ScreenInfo interface from useZoom.ts. -/
structure ScreenInfo where
  width : ℚ
  height : ℚ
  devicePixelRatio : ℚ
  screenType : ScreenType
deriving DecidableEq, Repr

/-- Rounding to two decimal places, Math.round(q * 100) / 100, with
Math.round modelled by the round-half-up rounding of rationals. -/
def round2 (q : ℚ) : ℚ := ((round (q * 100) : ℤ) : ℚ) / 100

/-- Clamping to the zoom range, Math.max(ZOOM_MIN, Math.min(ZOOM_MAX, q)). -/
def clampZoom (q : ℚ) : ℚ := max ZOOM_MIN (min ZOOM_MAX q)

/-- calculateOptimalZoom from useZoom.ts (lines 63-98): base zoom by screen
type, HiDPI adjustment by devicePixelRatio, then clamp and round. -/
def calculateOptimalZoom (screenInfo : ScreenInfo) : ℚ :=
  let baseZoom : ℚ :=
    match screenInfo.screenType with
    | .fourK => 125/100
    | .twoK => 11/10
    | .desktop => 1
    | .laptop => 95/100
    | .mobile => 85/100
    | .unknown => 1
  let adjusted : ℚ :=
    if 2 ≤ screenInfo.devicePixelRatio then baseZoom * (9/10)
    else if 3/2 ≤ screenInfo.devicePixelRatio then baseZoom * (95/100)
    else baseZoom
  round2 (clampZoom adjusted)

/-- setZoom from useZoom.ts (lines 201-207): clamp to the zoom range and
round to two decimal places; the result is the new zoom state. -/
def setZoom (level : ℚ) : ℚ := round2 (clampZoom level)

/-- zoomIn from useZoom.ts (lines 209-211): goes through setZoom. -/
def zoomIn (zoom step : ℚ) : ℚ := setZoom (zoom + step)

/-- zoomOut from useZoom.ts (lines 213-215): goes through setZoom. -/
def zoomOut (zoom step : ℚ) : ℚ := setZoom (zoom - step)

/-- resetZoom from useZoom.ts (lines 217-219): goes through setZoom. -/
def resetZoom : ℚ := setZoom 1

/-- autoZoom from useZoom.ts (lines 221-226): applies setZoom to the optimal
zoom computed from the current screen info. -/
def autoZoom (screenInfo : ScreenInfo) : ℚ :=
  setZoom (calculateOptimalZoom screenInfo)

-- ===== src/frontend/hooks/useLocalizedTool.ts =====

/-- LocalizedTool interface from useLocalizedTool.ts. -/
structure LocalizedTool where
  name : String
  description : String
  category : String
deriving DecidableEq, Repr

/-- The language normalization shared by the hooks:
(i18n.language or "en").split("-")[0]. -/
def normalizeLang (language : String) : String :=
  let base := if language = "" then "en" else language
  (base.splitOn "-").headD ""

/-- The getLocalized helper inside useLocalizedTool (lines 41-52): look the
current language up in the record of localized values and return the value
when truthy, otherwise the default. -/
def getLocalized (lang : String) (defaultValue : String)
    (localizedValues : String → Option String) : String :=
  match localizedValues lang with
  | some localized => if localized = "" then defaultValue else localized
  | none => defaultValue

/-- useLocalizedTool from useLocalizedTool.ts (lines 33-60): per-tool
localization through getLocalized, where the record of localized values has
the single key zh. -/
def useLocalizedTool (language : String) (tool : ButtonConfig) : LocalizedTool :=
  let lang := normalizeLang language
  { name := getLocalized lang tool.name
      (fun l => if l = "zh" then tool.name_zh else none),
    description := getLocalized lang tool.description
      (fun l => if l = "zh" then tool.description_zh else none),
    category := getLocalized lang tool.category
      (fun l => if l = "zh" then tool.category_zh else none) }

/-- useLocalizedTools from useLocalizedTool.ts (lines 95-111): batch
localization with inline conditionals testing the language and the
truthiness of the Chinese field. -/
def useLocalizedTools (language : String) (tools : List ButtonConfig) :
    List LocalizedTool :=
  let lang := normalizeLang language
  tools.map (fun tool =>
    { name :=
        if lang = "zh" && optTruthy tool.name_zh then tool.name_zh.getD ""
        else tool.name,
      description :=
        if lang = "zh" && optTruthy tool.description_zh then tool.description_zh.getD ""
        else tool.description,
      category :=
        if lang = "zh" && optTruthy tool.category_zh then tool.category_zh.getD ""
        else tool.category })

-- ===== Concrete sample values used to evaluate the model =====

/-- A bridge state with no surface available at all. -/
def noBridge : Bridge :=
  { apiPresent := false, getConfigFn := false, sendEventFn := false,
    onFn := false, offFn := false }

/-- A bridge state with the full api surface available. -/
def fullBridge : Bridge :=
  { apiPresent := true, getConfigFn := true, sendEventFn := true,
    onFn := true, offFn := true }

/-- A config event that carries a banner but no currentHost. -/
def eventWithBanner : ConfigResponse :=
  { shelves := [], banner := some { title := some "Build Tools" } }

/-- A config event that carries neither banner nor currentHost. -/
def eventPlain : ConfigResponse := { shelves := [] }

/-- A config event that carries both a banner and a currentHost. -/
def eventFull : ConfigResponse :=
  { shelves := [], banner := some { title := some "Render Tools" },
    currentHost := some "maya" }

/-- A sample button without category information. -/
def sampleButton : ButtonConfig :=
  { id := "b1", name := "Exporter", toolType := .python, toolPath := "t.py",
    icon := "Wrench", args := [], description := "exports", category := "" }

/-- A sample shelf holding the sample button. -/
def sampleShelf : ShelfConfig :=
  { id := "s1", name := "Pipeline", name_zh := some "流程", buttons := [sampleButton] }

/-- A sample config response holding the sample shelf. -/
def sampleConfig : ConfigResponse := { shelves := [sampleShelf] }

/-- A launch environment whose bridge call rejects. -/
def rejectingEnv : LaunchEnv :=
  { apiPresent := true, sendEventFn := false, isDev := false,
    launchToolResult := Except.error "boom",
    evalJs := fun _ => Except.ok () }

/-- A sample user tool, for exercising updateTool and deleteTool. -/
def sampleUserTool : ButtonConfig :=
  { id := "u1", name := "My Exporter", toolType := .python, toolPath := "u.py",
    icon := "Wrench", args := [], description := "",
    category := USER_TOOLS_CATEGORY, category_zh := some USER_TOOLS_CATEGORY_ZH,
    source := some .user }

-- ===== Theorems =====

lemma clampZoom_le (q : ℚ) : ZOOM_MIN ≤ clampZoom q ∧ clampZoom q ≤ ZOOM_MAX := by
  refine ⟨le_max_left _ _, max_le ?_ (min_le_left _ _)⟩
  norm_num [ZOOM_MIN, ZOOM_MAX]

lemma round2_le {c : ℚ} (h1 : (1 : ℚ)/2 ≤ c) (h2 : c ≤ 2) :
    (1 : ℚ)/2 ≤ round2 c ∧ round2 c ≤ 2 := by
  have h50 : (50 : ℤ) ≤ round (c * 100) := by
    rw [round_eq, Int.le_floor]
    push_cast
    linarith
  have h200 : round (c * 100) ≤ 200 := by
    have hlt : round (c * 100) < 201 := by
      rw [round_eq, Int.floor_lt]
      push_cast
      linarith
    omega
  have h50q : (50 : ℚ) ≤ ((round (c * 100) : ℤ) : ℚ) := by exact_mod_cast h50
  have h200q : ((round (c * 100) : ℤ) : ℚ) ≤ 200 := by exact_mod_cast h200
  constructor
  · rw [round2, le_div_iff₀ (by norm_num : (0 : ℚ) < 100)]
    linarith
  · rw [round2, div_le_iff₀ (by norm_num : (0 : ℚ) < 100)]
    linarith

lemma setZoom_mem (q : ℚ) :
    ZOOM_MIN ≤ setZoom q ∧ setZoom q ≤ ZOOM_MAX ∧
      ∃ n : ℤ, setZoom q = (n : ℚ) / 100 := by
  obtain ⟨hc1, hc2⟩ := clampZoom_le q
  have hc1q : (1 : ℚ)/2 ≤ clampZoom q := by
    simpa [ZOOM_MIN] using hc1
  have hc2q : clampZoom q ≤ 2 := by
    simpa [ZOOM_MAX] using hc2
  obtain ⟨hr1, hr2⟩ := round2_le hc1q hc2q
  refine ⟨by simpa [ZOOM_MIN, setZoom] using hr1,
          by simpa [ZOOM_MAX, setZoom] using hr2,
          ⟨round (clampZoom q * 100), rfl⟩⟩

/-- C8: every zoom value the controls can establish lies in [0.5, 2.0] and
is rounded to two decimal places: setZoom clamps and rounds, zoomIn,
zoomOut, resetZoom and autoZoom all route through setZoom, and
calculateOptimalZoom lands in [0.5, 2.0] (rounded) for every screen info. -/
theorem zoom_values_clamped_and_rounded :
    (∀ level : ℚ, ZOOM_MIN ≤ setZoom level ∧ setZoom level ≤ ZOOM_MAX ∧
       ∃ n : ℤ, setZoom level = (n : ℚ) / 100)
  ∧ (∀ zoom step : ℚ, zoomIn zoom step = setZoom (zoom + step)
       ∧ zoomOut zoom step = setZoom (zoom - step))
  ∧ resetZoom = setZoom 1
  ∧ (∀ info : ScreenInfo, autoZoom info = setZoom (calculateOptimalZoom info))
  ∧ (∀ info : ScreenInfo, ZOOM_MIN ≤ calculateOptimalZoom info ∧
       calculateOptimalZoom info ≤ ZOOM_MAX ∧
       ∃ n : ℤ, calculateOptimalZoom info = (n : ℚ) / 100) := by
  refine ⟨setZoom_mem, fun zoom step => ⟨rfl, rfl⟩, rfl, fun info => rfl, fun info => ?_⟩
  exact setZoom_mem _

lemma localize_field_eq (language : String) (d : String) (zh : Option String) :
    (if normalizeLang language = "zh" && optTruthy zh then zh.getD "" else d)
      = getLocalized (normalizeLang language) d
          (fun l => if l = "zh" then zh else none) := by
  by_cases hl : normalizeLang language = "zh"
  · cases zh with
    | none => simp [hl, getLocalized, optTruthy]
    | some s =>
      by_cases hs : s = "" <;> simp [hl, getLocalized, optTruthy, hs]
  · simp [hl, getLocalized]

/-- C9: the batch localizer agrees with the per-tool localizer: for every
language and tool list, useLocalizedTools equals the pointwise map of
useLocalizedTool, hence agrees at every index on name, description and
category. -/
theorem useLocalizedTools_eq_map (language : String) (tools : List ButtonConfig) :
    useLocalizedTools language tools = tools.map (useLocalizedTool language) := by
  unfold useLocalizedTools useLocalizedTool
  refine List.map_congr_left (fun tool _ => ?_)
  have h1 := localize_field_eq language tool.name tool.name_zh
  have h2 := localize_field_eq language tool.description tool.description_zh
  have h3 := localize_field_eq language tool.category tool.category_zh
  dsimp only
  rw [h1, h2, h3]

lemma foldl_append_flatMap {α β : Type} (f : α → List β) :
    ∀ (l : List α) (init : List β),
      l.foldl (fun acc s => acc ++ f s) init = init ++ l.flatMap f
  | [], init => by simp
  | s :: l, init => by
    simp only [List.foldl_cons, List.flatMap_cons,
      foldl_append_flatMap f l (init ++ f s), List.append_assoc]

lemma parseConfigToTools_eq_flatMap (config : ConfigResponse) :
    parseConfigToTools config
      = config.shelves.flatMap
          (fun shelf => shelf.buttons.map (fun b => withShelfCategory shelf b)) := by
  unfold parseConfigToTools
  simpa using foldl_append_flatMap _ config.shelves []

lemma flatMap_getElem_offset {α β : Type} (f : α → List β) :
    ∀ (l : List α) (i j : Nat) (s : α),
      l[i]? = some s → j < (f s).length →
      (l.flatMap f)[((l.take i).map (fun x => (f x).length)).sum + j]? = (f s)[j]?
  | [], i, j, s, hi, _hj => by simp at hi
  | x :: l, 0, j, s, hi, hj => by
    simp only [List.getElem?_cons_zero, Option.some.injEq] at hi
    subst hi
    simp only [List.take_zero, List.map_nil, List.sum_nil, Nat.zero_add,
      List.flatMap_cons]
    exact List.getElem?_append_left hj
  | x :: l, i + 1, j, s, hi, hj => by
    simp only [List.getElem?_cons_succ] at hi
    simp only [List.take_succ_cons, List.map_cons, List.sum_cons, List.flatMap_cons,
      Nat.add_assoc]
    rw [List.getElem?_append_right (by omega)]
    simpa [Nat.add_sub_cancel_left] using flatMap_getElem_offset f l i j s hi hj

lemma flatMap_getElem_shelfOffset (config : ConfigResponse) (i j : Nat)
    (shelf : ShelfConfig) (hi : config.shelves[i]? = some shelf)
    (hj : j < shelf.buttons.length) :
    (config.shelves.flatMap
        (fun sh => sh.buttons.map (fun b => withShelfCategory sh b)))[
          shelfOffset config.shelves i + j]?
      = (shelf.buttons.map (fun b => withShelfCategory shelf b))[j]? := by
  have h2 := flatMap_getElem_offset
    (fun sh : ShelfConfig => sh.buttons.map (fun b => withShelfCategory sh b))
    config.shelves i j shelf hi (by simpa using hj)
  have hofs : shelfOffset config.shelves i
      = ((config.shelves.take i).map
          (fun x : ShelfConfig =>
            ((fun sh : ShelfConfig =>
              sh.buttons.map (fun b => withShelfCategory sh b)) x).length)).sum := by
    unfold shelfOffset
    congr 1
    exact List.map_congr_left (fun sh _ => by simp)
  rw [hofs]
  exact h2

/-- C6: parseConfigToTools produces exactly one entry per button (its length
is the sum of the shelf sizes), preserves shelf order and button order within
each shelf (the j-th button of the i-th shelf lands at position
shelfOffset + j), and every produced entry has category equal to the name of
the containing shelf and category_zh equal to that shelf name_zh or the
empty string when absent. -/
theorem parseConfigToTools_flatten (config : ConfigResponse) (i j : Nat)
    (shelf : ShelfConfig) (button : ButtonConfig)
    (hi : config.shelves[i]? = some shelf)
    (hj : shelf.buttons[j]? = some button) :
    (parseConfigToTools config).length
        = (config.shelves.map (fun s => s.buttons.length)).sum
  ∧ (parseConfigToTools config)[shelfOffset config.shelves i + j]?
        = some (withShelfCategory shelf button)
  ∧ (withShelfCategory shelf button).category = shelf.name
  ∧ (withShelfCategory shelf button).category_zh = some (optStrOr shelf.name_zh "")
  ∧ (∀ t ∈ parseConfigToTools config, ∃ sh ∈ config.shelves, ∃ b ∈ sh.buttons,
        t = withShelfCategory sh b ∧ t.category = sh.name
          ∧ t.category_zh = some (optStrOr sh.name_zh "")) := by
  have hjlen : j < shelf.buttons.length := by
    rcases List.getElem?_eq_some_iff.mp hj with ⟨h, _⟩
    exact h
  refine ⟨?_, ?_, rfl, rfl, ?_⟩
  · rw [parseConfigToTools_eq_flatMap, List.length_flatMap]
    congr 1
    refine List.map_congr_left (fun sh _ => ?_)
    simp
  · rw [parseConfigToTools_eq_flatMap,
      flatMap_getElem_shelfOffset config i j shelf hi hjlen,
      List.getElem?_map, hj]
    rfl
  · intro t ht
    rw [parseConfigToTools_eq_flatMap] at ht
    rcases List.mem_flatMap.mp ht with ⟨sh, hsh, hmem⟩
    rcases List.mem_map.mp hmem with ⟨b, hb, rfl⟩
    exact ⟨sh, hsh, b, hb, rfl, rfl, rfl⟩

/-- C6 witness at a concrete one-shelf one-button config. -/
theorem parseConfigToTools_flatten_witness :
    (parseConfigToTools sampleConfig)[shelfOffset sampleConfig.shelves 0 + 0]?
      = some (withShelfCategory sampleShelf sampleButton) :=
  (parseConfigToTools_flatten sampleConfig 0 0 sampleShelf sampleButton rfl rfl).2.1

/-- C10: user-tool mutations are atomic on error: updateTool throws
"Tool not found" when no user tool has the id, every throwing run of
updateTool or deleteTool leaves the userTools list unchanged, and a
successful deleteTool leaves exactly the tools with a different id,
in order. -/
theorem userTools_mutations_atomic (tools : List ButtonConfig) (id : String)
    (sres : Except String SaveToolResult) (dres : Except String DeleteToolResult) :
    ((∀ t ∈ tools, t.id ≠ id) → updateTool tools id sres = (tools, some "Tool not found"))
  ∧ (∀ msg, (updateTool tools id sres).2 = some msg → (updateTool tools id sres).1 = tools)
  ∧ (∀ msg, (deleteTool tools id dres).2 = some msg → (deleteTool tools id dres).1 = tools)
  ∧ ((deleteTool tools id dres).2 = none →
        (deleteTool tools id dres).1 = tools.filter (fun t => t.id != id)
      ∧ (∀ t ∈ (deleteTool tools id dres).1, ¬ t.id = id)
      ∧ (∀ t ∈ tools, ¬ t.id = id → t ∈ (deleteTool tools id dres).1)) := by
  refine ⟨?_, ?_, ?_, ?_⟩
  · intro hno
    have hfind : tools.find? (fun t => t.id == id) = none := by
      rw [List.find?_eq_none]
      intro t ht
      simpa using hno t ht
    simp [updateTool, hfind]
  · intro msg
    unfold updateTool
    rcases hfind : tools.find? (fun t => t.id == id) with _ | t0 <;> rw [hfind]
    · simp
    · cases sres with
      | error err => simp
      | ok r => by_cases hs : r.success <;> simp [hs]
  · intro msg
    unfold deleteTool
    cases dres with
    | error err => simp
    | ok r => by_cases hs : r.success <;> simp [hs]
  · intro hnone
    unfold deleteTool at hnone ⊢
    cases dres with
    | error err => simp at hnone
    | ok r =>
      by_cases hs : r.success
      · refine ⟨by simp [hs], ?_, ?_⟩
        · intro t ht
          simp only [hs, if_true] at ht
          rcases List.mem_filter.mp ht with ⟨_, hne⟩
          simpa using hne
        · intro t ht hne
          simp only [hs, if_true]
          exact List.mem_filter.mpr ⟨ht, by simpa using hne⟩
      · simp [hs] at hnone

/-- C10 witness: deleting an absent id succeeds and leaves the one-element
list unchanged, and updating an absent id throws "Tool not found". -/
theorem userTools_mutations_atomic_witness :
    updateTool [sampleUserTool] "nope"
        (Except.ok { success := true, tool := { id := "u1", name := "n" } })
      = ([sampleUserTool], some "Tool not found") :=
  (userTools_mutations_atomic [sampleUserTool] "nope" _
      (Except.ok { success := true })).1
    (by intro t ht; simp [sampleUserTool] at ht; simp [ht, sampleUserTool])

/-- C1: the initialization effect selects exactly one of the three modes
with fixed priority (api when get_config is a function, else event when
send_event is a function, else mock in development), sets isConnected in
api and event mode, and every bridge method it invokes exists on the
bridge. -/
theorem init_mode_priority (b : Bridge) (isDev : Bool) :
    (hasApiMode b = true →
        (initIPC b isDev).modeSet = some IPCMode.api
      ∧ (initIPC b isDev).isConnected = true)
  ∧ (hasApiMode b = false → hasEventMode b = true →
        (initIPC b isDev).modeSet = some IPCMode.event
      ∧ (initIPC b isDev).isConnected = true)
  ∧ (hasApiMode b = false → hasEventMode b = false → isDev = true →
        (initIPC b isDev).modeSet = some IPCMode.mock)
  ∧ (∀ m ∈ (initIPC b isDev).bridgeCalls, methodExists b m = true) := by
  obtain ⟨a, g, se, onf, offf⟩ := b
  cases a <;> cases g <;> cases se <;> cases onf <;> cases offf <;>
    cases isDev <;> decide

/-- C1 witness at a fully available bridge: api mode wins and the hook is
connected. -/
theorem init_mode_priority_witness :
    (initIPC fullBridge false).modeSet = some IPCMode.api
  ∧ (initIPC fullBridge false).isConnected = true :=
  (init_mode_priority fullBridge false).1 rfl

/-- C7: in development mode, with neither the api-mode method nor the
event-mode method available, the hook falls back to mock mode: the mode is
set to mock, the tools state is set to the static TOOLS_DATA list, and
isConnected stays false. -/
theorem mock_mode_fallback (b : Bridge)
    (h1 : hasApiMode b = false) (h2 : hasEventMode b = false) :
    (initIPC b true).modeSet = some IPCMode.mock
  ∧ (initIPC b true).toolsSet = some TOOLS_DATA
  ∧ (initIPC b true).isConnected = false := by
  simp [initIPC, h1, h2]

/-- C7 witness at the empty bridge. -/
theorem mock_mode_fallback_witness :
    (initIPC noBridge true).modeSet = some IPCMode.mock
  ∧ (initIPC noBridge true).toolsSet = some TOOLS_DATA
  ∧ (initIPC noBridge true).isConnected = false :=
  mock_mode_fallback noBridge rfl rfl

lemma pollFrom_spec (avail : Nat → Bridge) :
    ∀ (k attempts : Nat), maxAttempts - attempts ≤ k → attempts < maxAttempts →
      attempts < (pollFrom avail attempts).2
    ∧ (pollFrom avail attempts).2 ≤ maxAttempts
    ∧ ((pollFrom avail attempts).1 = PollOutcome.timeoutError →
         (pollFrom avail attempts).2 = maxAttempts) := by
  have hM : maxAttempts = 50 := rfl
  intro k
  induction k with
  | zero => intro attempts hk hlt; omega
  | succ k ih =>
    intro attempts hk hlt
    unfold pollFrom
    dsimp only
    split
    · exact ⟨by omega, by omega, by intro h; cases h⟩
    · split
      · exact ⟨by omega, by omega, by intro h; cases h⟩
      · split
        · next h => exact ⟨by omega, by omega, by intro _; omega⟩
        · next h =>
          have := ih (attempts + 1) (by omega) (by omega)
          exact ⟨by omega, this.2.1, this.2.2⟩

lemma pollFrom_unavailable (avail : Nat → Bridge)
    (hav : ∀ n, hasApiMode (avail n) = false ∧ hasEventMode (avail n) = false) :
    ∀ (k attempts : Nat), maxAttempts - attempts ≤ k → attempts < maxAttempts →
      pollFrom avail attempts = (PollOutcome.timeoutError, maxAttempts) := by
  have hM : maxAttempts = 50 := rfl
  intro k
  induction k with
  | zero => intro attempts hk hlt; omega
  | succ k ih =>
    intro attempts hk hlt
    unfold pollFrom
    dsimp only
    rw [(hav attempts).1, (hav attempts).2]
    simp only [Bool.false_eq_true, if_false]
    split
    · next h =>
      have : attempts + 1 = maxAttempts := by omega
      rw [this]
    · next h => exact ih (attempts + 1) (by omega) (by omega)

lemma loadToolsFrom_spec (avail : Nat → Bool) (cr : Except String GetUserToolsResult) :
    ∀ (k rc : Nat), maxRetries - rc ≤ k → rc < maxRetries →
      (loadToolsFrom avail cr rc).2 ≤ maxRetries := by
  have hM : maxRetries = 50 := rfl
  intro k
  induction k with
  | zero => intro rc hk hlt; omega
  | succ k ih =>
    intro rc hk hlt
    unfold loadToolsFrom
    split
    · omega
    · split
      · next h => exact ih (rc + 1) (by omega) (by omega)
      · next h => omega

lemma loadToolsFrom_unavailable (avail : Nat → Bool)
    (cr : Except String GetUserToolsResult) (hav : ∀ n, avail n = false) :
    ∀ (k rc : Nat), maxRetries - rc ≤ k → rc < maxRetries →
      loadToolsFrom avail cr rc = (LoadOutcome.gaveUp, maxRetries) := by
  have hM : maxRetries = 50 := rfl
  intro k
  induction k with
  | zero => intro rc hk hlt; omega
  | succ k ih =>
    intro rc hk hlt
    unfold loadToolsFrom
    rw [hav rc]
    simp only [Bool.false_eq_true, if_false]
    split
    · next h => exact ih (rc + 1) (by omega) (by omega)
    · next h =>
      have : rc + 1 = maxRetries := by omega
      rw [this]

lemma loadToolsFrom_first_avail (avail : Nat → Bool)
    (cr : Except String GetUserToolsResult) :
    ∀ (k rc n : Nat), n - rc ≤ k → rc ≤ n → n < maxRetries →
      (∀ m, rc ≤ m → m < n → avail m = false) → avail n = true →
      loadToolsFrom avail cr rc = (loadCallOutcome cr, n) := by
  have hM : maxRetries = 50 := rfl
  intro k
  induction k with
  | zero =>
    intro rc n hk hle hlt hbefore hav
    have : rc = n := by omega
    subst this
    unfold loadToolsFrom
    rw [hav]
    simp
  | succ k ih =>
    intro rc n hk hle hlt hbefore hav
    by_cases hrn : rc = n
    · subst hrn
      unfold loadToolsFrom
      rw [hav]
      simp
    · unfold loadToolsFrom
      rw [hbefore rc (by omega) (by omega)]
      simp only [Bool.false_eq_true, if_false]
      split
      · next h =>
        exact ih (rc + 1) n (by omega) (by omega) hlt
          (fun m hm1 hm2 => hbefore m (by omega) hm2) hav
      · next h => omega

/-- C3: every polling loop is bounded and terminates: the production
polling loop runs at most 50 ticks of 100 ms, and on a bridge that never
becomes available it stops after exactly the 50th attempt with the timeout
error message; if it ends in the timeout outcome it ran exactly 50
attempts; the user-tools loader gives up after at most 50 retries, and
after exactly 50 when the API never becomes available. -/
theorem polling_loops_bounded (avail : Nat → Bridge) (availU : Nat → Bool)
    (cr : Except String GetUserToolsResult) :
    (pollForAuroraView avail).2 ≤ maxAttempts
  ∧ maxAttempts = 50 ∧ pollIntervalMs = 100 ∧ maxRetries = 50
  ∧ ((pollForAuroraView avail).1 = PollOutcome.timeoutError →
        (pollForAuroraView avail).2 = maxAttempts)
  ∧ ((∀ n, hasApiMode (avail n) = false ∧ hasEventMode (avail n) = false) →
        pollForAuroraView avail = (PollOutcome.timeoutError, 50)
      ∧ pollErrorMessage (pollForAuroraView avail).1
          = some "AuroraView not available after timeout")
  ∧ (loadTools availU cr).2 ≤ maxRetries
  ∧ ((∀ n, availU n = false) → loadTools availU cr = (LoadOutcome.gaveUp, 50)) := by
  have h1 := pollFrom_spec avail maxAttempts 0 (by omega) (by decide)
  refine ⟨h1.2.1, rfl, rfl, rfl, h1.2.2, ?_, ?_, ?_⟩
  · intro hav
    have h2 := pollFrom_unavailable avail hav maxAttempts 0 (by omega) (by decide)
    refine ⟨h2, ?_⟩
    unfold pollForAuroraView at h2 ⊢
    rw [h2]
    rfl
  · exact loadToolsFrom_spec availU cr maxRetries 0 (by omega) (by decide)
  · intro hav
    exact loadToolsFrom_unavailable availU cr hav maxRetries 0 (by omega) (by decide)

/-- C3 witness: on the never-available bridge the polling loop times out
after exactly 50 attempts. -/
theorem polling_loops_bounded_witness :
    pollForAuroraView (fun _ => noBridge) = (PollOutcome.timeoutError, 50)
  ∧ loadTools (fun _ => false) (Except.error "down") = (LoadOutcome.gaveUp, 50) :=
  ⟨((polling_loops_bounded (fun _ => noBridge) (fun _ => false)
      (Except.error "down")).2.2.2.2.2.1 (fun _ => ⟨rfl, rfl⟩)).1,
   (polling_loops_bounded (fun _ => noBridge) (fun _ => false)
      (Except.error "down")).2.2.2.2.2.2.2 (fun _ => rfl)⟩

/-- C2 counterexample: the user-tools loader does retry an unavailable
backend call: with the API never available a single run performs 50
availability attempts before giving up, refuting the claim that no
operation of the program retries an unavailable backend call. -/
theorem no_retry_policy_refuted :
    loadTools (fun _ => false) (Except.error "down") = (LoadOutcome.gaveUp, 50)
  ∧ ¬ ∀ (avail : Nat → Bool) (cr : Except String GetUserToolsResult),
        (loadTools avail cr).2 ≤ 1 := by
  have h : loadTools (fun _ => false) (Except.error "down")
      = (LoadOutcome.gaveUp, maxRetries) :=
    loadToolsFrom_unavailable _ _ (fun _ => rfl) maxRetries 0 (by omega) (by decide)
  refine ⟨h, fun hall => ?_⟩
  have h2 := hall (fun _ => false) (Except.error "down")
  rw [h] at h2
  simp [maxRetries] at h2

/-- C2 amended: a completed bridge call is never retried — once
get_user_tools is actually invoked, its single result (including a caught
rejection) immediately ends the loader run — but bridge unavailability is
retried: the loader re-attempts up to 50 times and the production polling
loop runs up to 50 attempts, so retries exist solely for an unavailable
bridge, never for a failed call. -/
theorem failed_calls_not_retried (avail : Nat → Bool)
    (cr : Except String GetUserToolsResult) (n : Nat) (hn : n < maxRetries)
    (hbefore : ∀ m, m < n → avail m = false) (hav : avail n = true) :
    loadTools avail cr = (loadCallOutcome cr, n)
  ∧ (∀ err, cr = Except.error err →
        (loadTools avail cr).1 = LoadOutcome.failedThrow err)
  ∧ (∀ availB : Nat → Bridge, (pollForAuroraView availB).2 ≤ maxAttempts)
  ∧ (loadTools avail cr).2 ≤ maxRetries := by
  have h : loadTools avail cr = (loadCallOutcome cr, n) :=
    loadToolsFrom_first_avail avail cr n 0 n (by omega) (by omega) hn
      (fun m _ hm2 => hbefore m hm2) hav
  refine ⟨h, ?_, ?_, ?_⟩
  · intro err he
    have hfst : (loadTools avail cr).1 = loadCallOutcome cr := by rw [h]
    rw [hfst, he]
    rfl
  · intro availB
    exact (pollFrom_spec availB maxAttempts 0 (by omega) (by decide)).2.1
  · have hsnd : (loadTools avail cr).2 = n := by rw [h]
    rw [hsnd]
    omega

/-- C2 amended witness: with availability arriving at attempt 1, the failed
call is made exactly once and ends the run at retry counter 1. -/
theorem failed_calls_not_retried_witness :
    loadTools (fun m => decide (m = 1)) (Except.error "down")
      = (loadCallOutcome (Except.error "down"), 1) :=
  (failed_calls_not_retried (fun m => decide (m = 1)) (Except.error "down") 1
    (by decide)
    (fun m hm => by
      have hm0 : m = 0 := by omega
      subst hm0
      rfl)
    rfl).1

/-- C4 counterexample: processing an event that carries a banner and then
one that carries none is not the same as processing the last event alone:
the banner set by the first event survives the second. -/
theorem last_event_wins_refuted :
    List.foldl applyConfigEvent initState [eventWithBanner, eventPlain]
      ≠ applyConfigEvent initState eventPlain := by
  decide

/-- C4 amended: last event wins field-wise: after processing any non-empty
event sequence the tools state equals the parse of the last event alone,
and whenever the last event carries both a banner and a non-empty
currentHost, the entire state equals the state obtained by processing the
last event alone. -/
theorem last_event_wins_per_field (es : List ConfigResponse) (e : ConfigResponse) :
    (List.foldl applyConfigEvent initState (es ++ [e])).tools = parseConfigToTools e
  ∧ (∀ bn h, e.banner = some bn → e.currentHost = some h → h ≠ "" →
        List.foldl applyConfigEvent initState (es ++ [e])
          = applyConfigEvent initState e) := by
  rw [List.foldl_append]
  constructor
  · rfl
  · intro bn h hb hh hne
    simp [List.foldl, applyConfigEvent, hb, hh, hne]

/-- C4 amended witness at a two-event sequence whose last event carries a
banner and a currentHost. -/
theorem last_event_wins_per_field_witness :
    List.foldl applyConfigEvent initState ([eventWithBanner] ++ [eventFull])
      = applyConfigEvent initState eventFull :=
  (last_event_wins_per_field [eventWithBanner] eventFull).2 _ "maya" rfl rfl
    (by decide)

lemma launchToolViaApi_spec (env : LaunchEnv) (buttonId : String) :
    ∃ r, launchToolViaApi env buttonId = Except.ok r
      ∧ (∀ err, env.launchToolResult = Except.error err →
          r = some { success := false, message := err, buttonId := buttonId })
      ∧ (∀ result jsErr, env.launchToolResult = Except.ok result →
          (result.success && optTruthy result.javascript) = true →
          env.evalJs (result.javascript.getD "") = Except.error jsErr →
          r = some { success := false, message := "JavaScript error: " ++ jsErr,
                     buttonId := buttonId })
      ∧ (∀ result, env.launchToolResult = Except.ok result →
          (result.success && optTruthy result.javascript) = false →
          r = some result)
      ∧ (∀ result, env.launchToolResult = Except.ok result →
          env.evalJs (result.javascript.getD "") = Except.ok () →
          r = some result) := by
  unfold launchToolViaApi launchToolTryBody
  rcases hr : env.launchToolResult with err | result
  · refine ⟨some { success := false, message := err, buttonId := buttonId },
      rfl, ?_, ?_, ?_, ?_⟩
    · intro e he
      injection he with h1
      subst h1
      rfl
    · intro result jsErr hok _ _
      exact Except.noConfusion hok
    · intro result hok _
      exact Except.noConfusion hok
    · intro result hok _
      exact Except.noConfusion hok
  · by_cases hg : (result.success && optTruthy result.javascript) = true
    · rcases hj : env.evalJs (result.javascript.getD "") with jsErr | u
      · refine ⟨some
            { success := false, message := "JavaScript error: " ++ jsErr,
              buttonId := buttonId },
          by simp [hg, hj], ?_, ?_, ?_, ?_⟩
        · intro e he
          exact Except.noConfusion he
        · intro result' jsErr' hok _ hj'
          injection hok with h1
          subst h1
          rw [hj] at hj'
          injection hj' with h2
          subst h2
          rfl
        · intro result' hok hg'
          injection hok with h1
          subst h1
          simp [hg'] at hg
        · intro result' hok hj'
          injection hok with h1
          subst h1
          rw [hj] at hj'
          exact Except.noConfusion hj'
      · refine ⟨some result, by simp [hg, hj], ?_, ?_, ?_, ?_⟩
        · intro e he
          exact Except.noConfusion he
        · intro result' jsErr' hok _ hj'
          injection hok with h1
          subst h1
          rw [hj] at hj'
          exact Except.noConfusion hj'
        · intro result' hok hg'
          injection hok with h1
          subst h1
          simp [hg'] at hg
        · intro result' hok _
          injection hok with h1
          subst h1
          rfl
    · have hgf : (result.success && optTruthy result.javascript) = false := by
        simpa using hg
      refine ⟨some result, by simp [hgf], ?_, ?_, ?_, ?_⟩
      · intro e he
        exact Except.noConfusion he
      · intro result' jsErr' hok hg' _
        injection hok with h1
        subst h1
        simp [hg'] at hgf
      · intro result' hok _
        injection hok with h1
        subst h1
        rfl
      · intro result' hok _
        injection hok with h1
        subst h1
        rfl

/-- C5: launchTool never rejects: the returned promise resolves in every
mode; in API mode it makes exactly one launch_tool call with the given
buttonId, a rejected bridge call becomes a failed launch result carrying
the buttonId and the error text, a throwing JavaScript payload becomes a
failed launch result with the JavaScript error message, and otherwise the
bridge result itself is stored. -/
theorem launchTool_never_rejects (env : LaunchEnv) (buttonId : String) :
    (∃ outcome, launchTool env buttonId = Except.ok outcome)
  ∧ (env.apiPresent = true →
      ∃ outcome, launchTool env buttonId = Except.ok outcome
        ∧ outcome.calls = [LaunchCall.apiLaunch buttonId]
        ∧ (∀ err, env.launchToolResult = Except.error err →
            outcome.launchResultState
              = some { success := false, message := err, buttonId := buttonId })
        ∧ (∀ result jsErr, env.launchToolResult = Except.ok result →
            (result.success && optTruthy result.javascript) = true →
            env.evalJs (result.javascript.getD "") = Except.error jsErr →
            outcome.launchResultState
              = some { success := false,
                       message := "JavaScript error: " ++ jsErr,
                       buttonId := buttonId })
        ∧ (∀ result, env.launchToolResult = Except.ok result →
            (result.success && optTruthy result.javascript) = false →
            outcome.launchResultState = some result)
        ∧ (∀ result, env.launchToolResult = Except.ok result →
            env.evalJs (result.javascript.getD "") = Except.ok () →
            outcome.launchResultState = some result)) := by
  obtain ⟨r, hr, herr, hjs, hpass, hok⟩ := launchToolViaApi_spec env buttonId
  constructor
  · unfold launchTool
    by_cases ha : env.apiPresent = true
    · rw [if_pos ha, hr]
      exact ⟨_, rfl⟩
    · rw [if_neg ha]
      by_cases hs : env.sendEventFn = true
      · rw [if_pos hs]
        exact ⟨_, rfl⟩
      · rw [if_neg hs]
        by_cases hd : env.isDev = true
        · rw [if_pos hd]
          exact ⟨_, rfl⟩
        · rw [if_neg hd]
          exact ⟨_, rfl⟩
  · intro ha
    refine ⟨{ launchResultState := r, calls := [LaunchCall.apiLaunch buttonId] },
      ?_, rfl, herr, hjs, hpass, hok⟩
    unfold launchTool
    rw [if_pos ha, hr]
    rfl

/-- C5 witness: a rejecting bridge call still yields a resolved promise,
with the failure stored as the launch result. -/
theorem launchTool_never_rejects_witness :
    ∃ outcome, launchTool rejectingEnv "btn-1" = Except.ok outcome
      ∧ outcome.launchResultState
          = some { success := false, message := "boom", buttonId := "btn-1" } := by
  obtain ⟨outcome, h1, _, herr, _, _, _⟩ :=
    (launchTool_never_rejects rejectingEnv "btn-1").2 rfl
  exact ⟨outcome, h1, herr "boom" rfl⟩

end DccShelves
